import Mathlib

/-!
Verification development for the Neo4j GraphRAG round-trip verification
script (src/src/rag_test.py).

The script is a harness that drives an external Neo4j store through five
ordered checks (connectivity, initialization, ingestion, hybrid search,
consistency) and renders the outcomes as a markdown report.  The shallow
embedding below models:

* the two dataclasses `HealthTechDocument` and `TestResult` verbatim;
* `generate_mock_embedding` over real vectors, parametrised by the
  underlying Gaussian sampler (`np.random.randn` is external library
  code, modelled as a deterministic function of the seed set by
  `np.random.seed` immediately before the draw);
* `_wait_for_index_online` as a poll loop over a status source indexed by
  elapsed time, with the fixed poll interval of 2 time-units and the
  timeout check of the Python `while time.time() - start_time < timeout`
  loop;
* `insert_health_documents` and `create_relationships` as operations on a
  store of named entities; the Cypher row semantics (UNWIND + MATCH +
  CREATE / apoc.create.relationship, RETURN count) is reproduced, and the
  Python functions fall off their end, so their modelled return value is
  `Option Nat` with value `none` (Python `None`);
* `vector_search_with_graph` over an abstract vector-index answer (the
  ranked node/score rows produced by `db.index.vector.queryNodes`), with
  the OPTIONAL MATCH / collect / null-target filter pipeline and the
  ORDER BY score DESC sort made explicit;
* `run_graphrag_test` as a function of an environment recording what the
  external store answered at each step (plus the measured latencies and
  timestamps, which come from the wall clock);
* `generate_markdown_table` as a function of the results list and of the
  `datetime.utcnow()` reading taken while rendering.
-/

/-! ## Data model (src/src/rag_test.py lines 36-54) -/

/-- Value of an entry of the `properties` dict of a document: the sample
data uses strings and booleans. -/
inductive PropValue : Type
  | str (s : String)
  | boolv (b : Bool)
deriving DecidableEq, Repr

/-- `HealthTechDocument` dataclass: a health tech document with semantic
embedding. -/
structure HealthTechDocument : Type where
  node_type : String
  name : String
  description : String
  embedding : List ℝ
  properties : List (String × PropValue)

/-- `TestResult` dataclass: test result data structure; `status` is the
string "PASS" or "FAIL". -/
structure TestResult : Type where
  test_name : String
  status : String
  latency_ms : ℚ
  details : String
  timestamp : String
deriving DecidableEq, Repr

/-! ## Class constants (lines 68-69) -/

/-- `Neo4jGraphRAG.VECTOR_DIMENSION = 1536` (OpenAI ada-002 dimension). -/
def VECTOR_DIMENSION : ℕ := 1536

/-- `Neo4jGraphRAG.INDEX_NAME = "health_vector_index"`. -/
def INDEX_NAME : String := "health_vector_index"

/-! ## Embedding generator (lines 302-309)

`generate_mock_embedding(seed, dimension=1536)` seeds the global numpy
generator, draws `dimension` standard-normal samples and divides by the
Euclidean norm.  The draw itself is library code; it is modelled as a
function `randn : seed → dimension → vector` because `np.random.seed(seed)`
immediately precedes the single draw, so the drawn vector is a pure
function of `(seed, dimension)`. -/

/-- Euclidean (L2) norm of a real vector, `np.linalg.norm`. -/
noncomputable def l2norm (v : List ℝ) : ℝ :=
  Real.sqrt ((v.map (fun x => x ^ 2)).sum)

/-- `generate_mock_embedding(seed, dimension)`: draw, then normalize to a
unit vector (`embedding / norm`). -/
noncomputable def generate_mock_embedding (randn : ℕ → ℕ → List ℝ)
    (seed : ℕ) (dimension : ℕ) : List ℝ :=
  let embedding := randn seed dimension
  let norm := l2norm embedding
  embedding.map (fun x => x / norm)

/-! ## Index lifecycle: `_wait_for_index_online` (lines 155-172)

The Python loop runs while `time.time() - start_time < timeout`; each
iteration reads the index state (`SHOW INDEXES ... RETURN state`), returns
when the record exists and its state is `"ONLINE"`, and otherwise sleeps 2
seconds.  After the loop it raises `TimeoutError`.  The status source is a
function from elapsed time to the record returned by the SHOW INDEXES
query (`none` models a missing record). -/

/-- The `TimeoutError` message raised when the index never came online. -/
def waitTimeoutMsg (timeout : ℕ) : String :=
  "Index " ++ INDEX_NAME ++ " did not come online within " ++ toString timeout ++ "s"

/-- One poll iteration at elapsed time `t`; polls happen at `t = 0, 2, 4, …`
while `t < timeout`. -/
def waitLoop (status : ℕ → Option String) (timeout : ℕ) (t : ℕ) :
    Except String Unit :=
  if h : t < timeout then
    if status t = some "ONLINE" then Except.ok ()
    else waitLoop status timeout (t + 2)
  else Except.error (waitTimeoutMsg timeout)
termination_by timeout - t
decreasing_by omega

/-- `_wait_for_index_online(timeout)`: start polling at elapsed time 0. -/
def _wait_for_index_online (status : ℕ → Option String) (timeout : ℕ) :
    Except String Unit :=
  waitLoop status timeout 0

/-! ## Data loader: `insert_health_documents` (lines 174-202)

The Cypher `UNWIND $docs AS doc CREATE (n:HealthEntity) SET ... RETURN
n.name AS name` creates one node per document in a single batched run and
returns one row (the name) per created node; the Python reads
`inserted_count = len(list(result))`, logs it, and falls off the end of the
function, so the Python return value is `None`. -/

/-- What one call to `insert_health_documents` does: the store after the
batched write, the rows the write returned, and the Python return value. -/
structure InsertOutcome : Type where
  newStore : List HealthTechDocument
  returnedRows : List String
  pyReturn : Option ℕ

/-- `insert_health_documents(documents)` against a store holding the
already-created `HealthEntity` nodes. -/
def insert_health_documents (store : List HealthTechDocument)
    (documents : List HealthTechDocument) : InsertOutcome :=
  { newStore := store ++ documents
    returnedRows := documents.map (fun doc => doc.name)
    pyReturn := none }

/-! ## Data loader: `create_relationships` (lines 204-243)

Two Cypher strategies over the same `(source, type, target)` triples:

* dynamic (requires APOC): `MATCH` source and target by name and
  `CALL apoc.create.relationship(source, rel.type, {}, target)` — the
  relationship label is the triple's type, no properties;
* fallback: `CREATE (source)-[r:RELATED_TO {type: rel.type}]->(target)` —
  the label is fixed to `RELATED_TO` and the type is kept as a property.

Each strategy's query returns the aggregate `count` of created
relationships: one per (matching source node, matching target node) pair
per triple.  The Python tries the dynamic query, falls back to the static
one when the dynamic run raises `Neo4jError`, logs the count either way,
and returns `None`. -/

/-- Which creation strategy ran. -/
inductive RelStrategy : Type
  | dynamic
  | fallback
deriving DecidableEq, Repr

/-- One relationship as created in the store. -/
structure CreatedRel : Type where
  source : String
  label : String
  type_prop : Option String
  target : String
deriving DecidableEq, Repr

/-- Rows of the dynamic (APOC) query: for each triple, one created
relationship per matching (source, target) node pair, labelled with the
triple's type and carrying no properties. -/
def dynamicRels (names : List String) (rels : List (String × String × String)) :
    List CreatedRel :=
  rels.flatMap (fun rel =>
    (names.filter (fun m => m = rel.1)).flatMap (fun s =>
      (names.filter (fun m => m = rel.2.2)).map (fun t =>
        { source := s, label := rel.2.1, type_prop := none, target := t })))

/-- Rows of the fallback query: same matching, but the label is the fixed
`RELATED_TO` and the original type is preserved in the `type` property. -/
def fallbackRels (names : List String) (rels : List (String × String × String)) :
    List CreatedRel :=
  rels.flatMap (fun rel =>
    (names.filter (fun m => m = rel.1)).flatMap (fun s =>
      (names.filter (fun m => m = rel.2.2)).map (fun t =>
        { source := s, label := "RELATED_TO", type_prop := some rel.2.1, target := t })))

/-- What one successful call to `create_relationships` did: the created
relationships, the `created` count read back from the query, the strategy
that ran, and the Python return value. -/
structure RelOutcome : Type where
  created : List CreatedRel
  count : ℕ
  strategy : RelStrategy
  pyReturn : Option ℕ
deriving DecidableEq, Repr

/-- `create_relationships(relationships)`.  `dynamicOk` models the dynamic
(APOC) query run not raising `Neo4jError`; `fallbackOk` the same for the
fallback query.  If the dynamic run raises, the fallback is tried on the
same triples; if that raises too, the error propagates to the caller. -/
def create_relationships (dynamicOk fallbackOk : Bool) (names : List String)
    (rels : List (String × String × String)) : Except String RelOutcome :=
  if dynamicOk then
    Except.ok { created := dynamicRels names rels
                count := (dynamicRels names rels).length
                strategy := RelStrategy.dynamic
                pyReturn := none }
  else if fallbackOk then
    Except.ok { created := fallbackRels names rels
                count := (fallbackRels names rels).length
                strategy := RelStrategy.fallback
                pyReturn := none }
  else Except.error "Neo4jError: relationship creation failed"

/-! ## Hybrid query engine: `vector_search_with_graph` (lines 245-299)

The Cypher pipeline: `db.index.vector.queryNodes` yields up to `top_k`
(node, score) rows from the vector index; `OPTIONAL MATCH
(node)-[r]->(related:HealthEntity)` expands each row to its outgoing
relationships, keeping one all-null row when there are none; `collect`
regroups the expansion per node into a list of
`{type, target_name, target_type}` maps; `ORDER BY score DESC` sorts.
The Python then keeps, per record, only the collected entries whose
`target_name` is not `None`.

The vector index answer is abstract input (the external index ranks by
cosine similarity); the store's nodes and relationships are explicit. -/

/-- One (node, score) row yielded by `db.index.vector.queryNodes`. -/
structure IndexHit : Type where
  name : String
  node_type : String
  description : String
  score : ℚ
deriving DecidableEq, Repr

/-- A `HealthEntity` node as the OPTIONAL MATCH sees it. -/
structure StoredEntity : Type where
  name : String
  node_type : String
deriving DecidableEq, Repr

/-- A stored relationship, `(node)-[r]->(related)`. -/
structure GraphEdge : Type where
  src : String
  label : String
  tgt : String
deriving DecidableEq, Repr

/-- One collected `{type, target_name, target_type}` map; `none` is the
Cypher `null` an OPTIONAL MATCH with no match produces. -/
structure RelEntry : Type where
  type : Option String
  target_name : Option String
  target_type : Option String
deriving DecidableEq, Repr

/-- One element of the list `vector_search_with_graph` returns. -/
structure SearchResult : Type where
  name : String
  node_type : String
  description : String
  similarity_score : ℚ
  relationships : List RelEntry
deriving DecidableEq, Repr

/-- The matched `(r, related)` rows for one node: one per outgoing edge
whose target is a stored `HealthEntity`. -/
def relRows (ents : List StoredEntity) (edges : List GraphEdge) (n : String) :
    List RelEntry :=
  (edges.filter (fun e => e.src = n)).flatMap (fun e =>
    (ents.filter (fun t => t.name = e.tgt)).map (fun t =>
      { type := some e.label, target_name := some t.name,
        target_type := some t.node_type }))

/-- The rows after OPTIONAL MATCH: the matched rows, or one all-null row
when nothing matched. -/
def optionalMatchRows (ents : List StoredEntity) (edges : List GraphEdge)
    (n : String) : List RelEntry :=
  if relRows ents edges n = [] then
    [{ type := none, target_name := none, target_type := none }]
  else relRows ents edges n

/-- `ORDER BY score DESC` (ties in server-defined order; mergeSort is
stable, which fixes one such order). -/
def sortByScoreDesc (hits : List IndexHit) : List IndexHit :=
  hits.mergeSort (fun a b => decide (b.score ≤ a.score))

/-- `vector_search_with_graph(query_embedding, top_k)`: `hits` is the
ranked answer of the vector index for that query and bound. -/
def vector_search_with_graph (hits : List IndexHit) (ents : List StoredEntity)
    (edges : List GraphEdge) : List SearchResult :=
  (sortByScoreDesc hits).map (fun h =>
    { name := h.name
      node_type := h.node_type
      description := h.description
      similarity_score := h.score
      relationships :=
        (optionalMatchRows ents edges h.name).filter
          (fun rel => rel.target_name.isSome) })

/-! ## Sample data (lines 312-357) -/

/-- `create_sample_health_data()`: the three fixed health tech documents
(seeds 42, 43, 44, default dimension 1536) and three typed relationships. -/
noncomputable def create_sample_health_data (randn : ℕ → ℕ → List ℝ) :
    List HealthTechDocument × List (String × String × String) :=
  ([{ node_type := "Symptom"
      name := "Arrhythmia"
      description := "Irregular heartbeat characterized by abnormal heart rhythm patterns"
      embedding := generate_mock_embedding randn 42 1536
      properties := [("severity", PropValue.str "high"),
                     ("category", PropValue.str "cardiovascular"),
                     ("icd10_code", PropValue.str "I49.9")] },
    { node_type := "Drug"
      name := "Beta-Blocker"
      description := "Medication that reduces heart rate and blood pressure by blocking adrenaline effects"
      embedding := generate_mock_embedding randn 43 1536
      properties := [("drug_class", PropValue.str "cardiovascular"),
                     ("administration", PropValue.str "oral"),
                     ("fda_approved", PropValue.boolv true)] },
    { node_type := "Diagnosis"
      name := "Atrial Fibrillation"
      description := "Specific type of arrhythmia involving rapid, irregular atrial contractions"
      embedding := generate_mock_embedding randn 44 1536
      properties := [("condition_type", PropValue.str "chronic"),
                     ("prevalence", PropValue.str "common"),
                     ("risk_level", PropValue.str "moderate")] }],
   [("Arrhythmia", "TREATED_BY", "Beta-Blocker"),
    ("Arrhythmia", "MANIFESTS_AS", "Atrial Fibrillation"),
    ("Atrial Fibrillation", "TREATED_BY", "Beta-Blocker")])

/-- The query embedding of check 4 (line 471): the Arrhythmia seed, default
dimension. -/
noncomputable def test4_query_embedding (randn : ℕ → ℕ → List ℝ) : List ℝ :=
  generate_mock_embedding randn 42 1536

/-! ## Verification orchestrator: `run_graphrag_test` (lines 360-567)

The five checks run against the external store; what the store answered at
each step is the environment below.  `connectivity` is the boolean
`verify_connection` returns (that method catches every exception and
returns `False`); `initResult` covers `clear_database` +
`create_vector_index` (error = the exception's message); `ingestResult`
covers `insert_health_documents` + `create_relationships`;
`searchResult` is what `vector_search_with_graph` returned (or the raised
error); `countsResult` holds the three consistency counts (nodes,
relationships, nodes with embeddings).  Latencies and timestamps are read
from the wall clock, one per check. -/

/-- The external answers one run of `run_graphrag_test` observes. -/
structure TestEnv : Type where
  connectivity : Bool
  initResult : Except String Unit
  ingestResult : Except String Unit
  searchResult : Except String (List SearchResult)
  countsResult : Except String (ℕ × ℕ × ℕ)
  lat1 : ℚ
  lat2 : ℚ
  lat3 : ℚ
  lat4 : ℚ
  lat5 : ℚ
  ts1 : String
  ts2 : String
  ts3 : String
  ts4 : String
  ts5 : String

/-- Test 4 (lines 463-515): hybrid vector + graph search.  Pass iff the
result list is non-empty, its top hit is "Arrhythmia" and that hit has at
least one relationship; every other path records a FAIL outcome and the
run continues. -/
def check4_result (env : TestEnv) : TestResult :=
  match env.searchResult with
  | Except.error e =>
      { test_name := "Hybrid Vector + Graph Search", status := "FAIL"
        latency_ms := env.lat4, details := "Search failed: " ++ e
        timestamp := env.ts4 }
  | Except.ok [] =>
      { test_name := "Hybrid Vector + Graph Search", status := "FAIL"
        latency_ms := env.lat4
        details := "Search failed: No search results returned"
        timestamp := env.ts4 }
  | Except.ok (top :: _) =>
      if top.name = "Arrhythmia" ∧ 0 < top.relationships.length then
        { test_name := "Hybrid Vector + Graph Search", status := "PASS"
          latency_ms := env.lat4
          details := "Found correct match '" ++ top.name ++ "' with "
            ++ toString top.relationships.length ++ " graph relationships"
          timestamp := env.ts4 }
      else
        { test_name := "Hybrid Vector + Graph Search", status := "FAIL"
          latency_ms := env.lat4
          details := "Search failed: Unexpected top result: " ++ top.name
            ++ " (expected: Arrhythmia) or missing relationships"
          timestamp := env.ts4 }

/-- Test 5 (lines 517-565): data consistency verification.  Pass iff the
node count, relationship count and embedded-node count all equal 3. -/
def check5_result (env : TestEnv) : TestResult :=
  match env.countsResult with
  | Except.error e =>
      { test_name := "Data Consistency Verification", status := "FAIL"
        latency_ms := env.lat5, details := "Verification failed: " ++ e
        timestamp := env.ts5 }
  | Except.ok (node_count, rel_count, nodes_with_embeddings) =>
      if node_count = 3 ∧ rel_count = 3 ∧ nodes_with_embeddings = 3 then
        { test_name := "Data Consistency Verification", status := "PASS"
          latency_ms := env.lat5
          details := "Verified " ++ toString node_count ++ " nodes, "
            ++ toString rel_count ++ " relationships, all with embeddings"
          timestamp := env.ts5 }
      else
        { test_name := "Data Consistency Verification", status := "FAIL"
          latency_ms := env.lat5
          details := "Verification failed: Data inconsistency: Expected 3 nodes, 3 rels, got "
            ++ toString node_count ++ " nodes, " ++ toString rel_count
            ++ " rels, " ++ toString nodes_with_embeddings ++ " with embeddings"
          timestamp := env.ts5 }

/-- `run_graphrag_test`: the five ordered checks with early return after a
failure of check 1, 2 or 3. -/
def run_graphrag_test (env : TestEnv) : List TestResult :=
  if env.connectivity = false then
    [{ test_name := "Connection Verification", status := "FAIL"
       latency_ms := env.lat1
       details := "Connection failed: Connection verification returned False"
       timestamp := env.ts1 }]
  else
    let r1 : TestResult :=
      { test_name := "Connection Verification", status := "PASS"
        latency_ms := env.lat1
        details := "Successfully connected to Neo4j database"
        timestamp := env.ts1 }
    match env.initResult with
    | Except.error e =>
        [r1,
         { test_name := "Database Initialization", status := "FAIL"
           latency_ms := env.lat2, details := "Initialization failed: " ++ e
           timestamp := env.ts2 }]
    | Except.ok _ =>
      let r2 : TestResult :=
        { test_name := "Database Initialization", status := "PASS"
          latency_ms := env.lat2
          details := "Database cleared and vector index created"
          timestamp := env.ts2 }
      match env.ingestResult with
      | Except.error e =>
          [r1, r2,
           { test_name := "Data Ingestion", status := "FAIL"
             latency_ms := env.lat3, details := "Ingestion failed: " ++ e
             timestamp := env.ts3 }]
      | Except.ok _ =>
        let r3 : TestResult :=
          { test_name := "Data Ingestion", status := "PASS"
            latency_ms := env.lat3
            details := "Ingested 3 documents with 3 relationships"
            timestamp := env.ts3 }
        [r1, r2, r3, check4_result env, check5_result env]

/-- The five test names, in check order. -/
def canonicalTestNames : List String :=
  ["Connection Verification", "Database Initialization", "Data Ingestion",
   "Hybrid Vector + Graph Search", "Data Consistency Verification"]

/-! ## Report builder: `generate_markdown_table` (lines 570-597)

The function reads `datetime.utcnow()` for the "Test Run" header line, so
the rendered document depends on the results list *and* on the clock
reading; `now` is that reading.  The banner is either the all-passed line
or the failed-count line. -/

/-- The status banner of the report. -/
inductive Banner : Type
  | allPassed
  | someFailed (failed : ℕ)
deriving DecidableEq, Repr

/-- The rendered report: header fields, summary stats, banner, and one
table row (name, icon + status, latency, details) per outcome. -/
structure MarkdownReport : Type where
  testRun : String
  passed : ℕ
  failed : ℕ
  total : ℕ
  avgLatency : ℚ
  banner : Banner
  rows : List (String × String × ℚ × String)
deriving DecidableEq, Repr

/-- `generate_markdown_table(results)` at clock reading `now`. -/
def generate_markdown_table (now : String) (results : List TestResult) :
    MarkdownReport :=
  let total_tests := results.length
  let passed_tests := (results.filter (fun r => r.status = "PASS")).length
  let failed_tests := total_tests - passed_tests
  let avg_latency : ℚ :=
    if 0 < total_tests then (results.map (fun r => r.latency_ms)).sum / total_tests
    else 0
  { testRun := now
    passed := passed_tests
    failed := failed_tests
    total := total_tests
    avgLatency := avg_latency
    banner := if passed_tests = total_tests then Banner.allPassed
              else Banner.someFailed failed_tests
    rows := results.map (fun r =>
      (r.test_name,
       (if r.status = "PASS" then "✅" else "❌") ++ " " ++ r.status,
       r.latency_ms, r.details)) }

/-! ## Concrete inputs used by witnesses and counterexamples -/

/-- A status source that reads "POPULATING" at time 0 and "ONLINE" from
time 1 on: the index becomes online at elapsed time 1. -/
def statusOnlineAt1 : ℕ → Option String :=
  fun t => if 1 ≤ t then some "ONLINE" else some "POPULATING"

/-- A status source that always reads "ONLINE". -/
def statusAlwaysOnline : ℕ → Option String := fun _ => some "ONLINE"

/-- A degenerate sampler standing in for `np.random.randn`: every draw is
the all-ones vector of the requested dimension. -/
noncomputable def onesSampler : ℕ → ℕ → List ℝ := fun _ d => List.replicate d 1

/-- The names of the three sample entities, as stored. -/
def sampleNames : List String := ["Arrhythmia", "Beta-Blocker", "Atrial Fibrillation"]

/-- The three sample relationship triples (lines 351-355). -/
def sampleRelTriples : List (String × String × String) :=
  [("Arrhythmia", "TREATED_BY", "Beta-Blocker"),
   ("Arrhythmia", "MANIFESTS_AS", "Atrial Fibrillation"),
   ("Atrial Fibrillation", "TREATED_BY", "Beta-Blocker")]

/-- A one-document batch with an empty embedding, for concrete evaluation
of the insert path. -/
def docEx : HealthTechDocument :=
  { node_type := "Symptom", name := "Arrhythmia", description := "demo"
    embedding := [], properties := [] }

/-- A concrete vector-index answer with a single hit. -/
def hitEx : IndexHit :=
  { name := "Arrhythmia", node_type := "Symptom", description := "demo", score := 1 }

/-- A concrete store with one entity and no relationships. -/
def entEx : StoredEntity := { name := "Arrhythmia", node_type := "Symptom" }

/-- A concrete passing outcome used to evaluate the report builder. -/
def resultEx : TestResult :=
  { test_name := "Connection Verification", status := "PASS", latency_ms := 12
    details := "Successfully connected to Neo4j database", timestamp := "t0" }

/-- A concrete environment in which every external answer succeeds. -/
def envAllOk : TestEnv :=
  { connectivity := true
    initResult := Except.ok ()
    ingestResult := Except.ok ()
    searchResult := Except.ok
      [{ name := "Arrhythmia", node_type := "Symptom", description := "demo"
         similarity_score := 1
         relationships := [{ type := some "TREATED_BY"
                             target_name := some "Beta-Blocker"
                             target_type := some "Drug" }] }]
    countsResult := Except.ok (3, 3, 3)
    lat1 := 1, lat2 := 1, lat3 := 1, lat4 := 1, lat5 := 1
    ts1 := "t1", ts2 := "t2", ts3 := "t3", ts4 := "t4", ts5 := "t5" }

/-! ## Index creation configuration (lines 129-153)

`create_vector_index` interpolates `INDEX_NAME` and `VECTOR_DIMENSION`
into the CREATE VECTOR INDEX statement, with cosine similarity. -/

/-- The options of the vector index the script creates. -/
structure IndexConfig : Type where
  name : String
  dimensions : ℕ
  similarity_function : String
deriving DecidableEq, Repr

/-- The configuration `create_vector_index` issues to the server. -/
def create_vector_index_config : IndexConfig :=
  { name := INDEX_NAME
    dimensions := VECTOR_DIMENSION
    similarity_function := "cosine" }

/-! ## Helper lemmas -/

/-- The fallback query's rows are the dynamic query's rows with the label
replaced by `RELATED_TO` and the original label moved into the `type`
property. -/
theorem fallbackRels_eq_map (names : List String)
    (rels : List (String × String × String)) :
    fallbackRels names rels = (dynamicRels names rels).map
      (fun c => { source := c.source, label := "RELATED_TO",
                  type_prop := some c.label, target := c.target }) := by
  unfold fallbackRels dynamicRels
  rw [List.map_flatMap]
  congr 1
  funext rel
  rw [List.map_flatMap]
  congr 1
  funext s
  rw [List.map_map]
  rfl

/-- A filter keeps every element exactly when its length is unchanged. -/
theorem length_filter_eq_length_iff {α : Type} (p : α → Bool) (l : List α) :
    (l.filter p).length = l.length ↔ ∀ x ∈ l, p x = true := by
  induction l with
  | nil => simp
  | cons a l ih =>
    by_cases h : p a
    · simp [List.filter_cons, h, ih]
    · simp only [List.filter_cons, h, Bool.false_eq_true, if_false, List.length_cons]
      constructor
      · intro hl
        exfalso
        have hle := List.length_filter_le p l
        omega
      · intro hall
        exact absurd (hall a (by simp)) (by simp [h])

/-! ## Claim C6 -/

/-- Claim C6 counterexample: at the concrete one-document batch, the
Python function returns `None`, not the inserted count (which is 1 at this
input): the claim "returns the count of entities inserted" is false of the
code as written. -/
theorem insert_health_documents_returns_none :
    (insert_health_documents [] [docEx]).pyReturn = none
    ∧ (insert_health_documents [] [docEx]).pyReturn ≠ some 1 := by
  constructor
  · rfl
  · simp [insert_health_documents]

/-- Claim C6 (amended): `insert_health_documents(documents)` performs a
single batched write of the whole document list (the store grows by
exactly the batch, appended in order in one operation), and the write
returns one row per inserted document, so the count the function computes
and logs equals the length of the document list; the function itself
returns `None` rather than that count. -/
theorem insert_health_documents_spec (store documents : List HealthTechDocument) :
    (insert_health_documents store documents).newStore = store ++ documents
    ∧ (insert_health_documents store documents).returnedRows.length = documents.length
    ∧ (insert_health_documents store documents).pyReturn = none := by
  refine ⟨rfl, ?_, rfl⟩
  simp [insert_health_documents]

/-! ## Claim C3 -/

/-- Claim C3 counterexample: with the dynamic strategy failing and the
fallback succeeding on the three sample triples, the operation succeeds
and computes created count 3, but the Python function returns `None` to
its caller, not the count: the claim "returning the same created count to
the caller" is false of the code as written. -/
theorem create_relationships_returns_none :
    Except.map (fun o => o.pyReturn)
      (create_relationships false true sampleNames sampleRelTriples)
      = Except.ok (none : Option ℕ)
    ∧ Except.map (fun o => o.pyReturn)
      (create_relationships false true sampleNames sampleRelTriples)
      ≠ Except.ok (some 3)
    ∧ Except.map (fun o => o.count)
      (create_relationships false true sampleNames sampleRelTriples)
      = Except.ok 3 := by
  have h1 : Except.map (fun o => o.pyReturn)
      (create_relationships false true sampleNames sampleRelTriples)
      = Except.ok (none : Option ℕ) := rfl
  refine ⟨h1, ?_, rfl⟩
  rw [h1]
  intro h
  exact Option.noConfusion (Except.ok.inj h)

/-- Claim C3 (amended): `create_relationships(triples)` first attempts the
dynamically-typed strategy; if that attempt fails it retries the same
triples with the statically-typed fallback (fixed label `RELATED_TO`, the
original type preserved as the `type` property) and reports success,
computing (and logging) the same created count as the dynamic strategy
would have — the Python function returns `None` to the caller in both
cases rather than the count; the operation fails only when both
strategies fail. -/
theorem create_relationships_fallback_spec (dynamicOk fallbackOk : Bool)
    (names : List String) (rels : List (String × String × String)) :
    (fallbackRels names rels).length = (dynamicRels names rels).length
    ∧ (fallbackRels names rels).map (fun c => c.type_prop)
        = (dynamicRels names rels).map (fun c => some c.label)
    ∧ (∀ c ∈ fallbackRels names rels, c.label = "RELATED_TO")
    ∧ (dynamicOk = true →
        create_relationships dynamicOk fallbackOk names rels
          = Except.ok { created := dynamicRels names rels
                        count := (dynamicRels names rels).length
                        strategy := RelStrategy.dynamic, pyReturn := none })
    ∧ (dynamicOk = false → fallbackOk = true →
        create_relationships dynamicOk fallbackOk names rels
          = Except.ok { created := fallbackRels names rels
                        count := (fallbackRels names rels).length
                        strategy := RelStrategy.fallback, pyReturn := none })
    ∧ (dynamicOk = false → fallbackOk = false →
        create_relationships dynamicOk fallbackOk names rels
          = Except.error "Neo4jError: relationship creation failed") := by
  refine ⟨?_, ?_, ?_, ?_, ?_, ?_⟩
  · rw [fallbackRels_eq_map, List.length_map]
  · rw [fallbackRels_eq_map, List.map_map]
    rfl
  · intro c hc
    rw [fallbackRels_eq_map] at hc
    obtain ⟨d, _, rfl⟩ := List.mem_map.mp hc
    rfl
  · intro h; simp [create_relationships, h]
  · intro h1 h2; simp [create_relationships, h1, h2]
  · intro h1 h2; simp [create_relationships, h1, h2]

/-! ## Claim C7 -/

/-- Claim C7: the report's passed count is the number of outcomes with
status PASS, its failed count is the total minus the passed count, its
mean latency is the arithmetic mean of all recorded latencies (an empty
outcome list yields a mean of zero rather than an error), and the
all-passed banner is displayed iff every outcome has status PASS. -/
theorem generate_markdown_table_totals (now : String) (results : List TestResult) :
    (generate_markdown_table now results).passed
        = (results.filter (fun r => r.status = "PASS")).length
    ∧ (generate_markdown_table now results).failed
        = results.length - (results.filter (fun r => r.status = "PASS")).length
    ∧ (results = [] → (generate_markdown_table now results).avgLatency = 0)
    ∧ (results ≠ [] → (generate_markdown_table now results).avgLatency
        = (results.map (fun r => r.latency_ms)).sum / results.length)
    ∧ ((generate_markdown_table now results).banner = Banner.allPassed
        ↔ ∀ r ∈ results, r.status = "PASS") := by
  refine ⟨rfl, rfl, ?_, ?_, ?_⟩
  · intro h
    subst h
    simp [generate_markdown_table]
  · intro h
    have hpos : 0 < results.length := List.length_pos.mpr h
    simp [generate_markdown_table, hpos]
  · simp only [generate_markdown_table]
    by_cases h : (results.filter (fun r => r.status = "PASS")).length = results.length
    · rw [if_pos h]
      exact iff_of_true rfl
        (fun r hr => by simpa using (length_filter_eq_length_iff _ _).mp h r hr)
    · rw [if_neg h]
      refine iff_of_false (by simp) (fun hall => h ?_)
      exact (length_filter_eq_length_iff _ _).mpr (fun x hx => by simp [hall x hx])

/-! ## Claim C8 -/

/-- Claim C8 counterexample: two invocations with the identical outcome
list, at two different clock readings, produce different report documents
(the Test Run header differs): the rendered report is not a pure function
of the outcome list alone. -/
theorem generate_markdown_table_clock_dependent :
    generate_markdown_table "2026-01-20 00:00:00 UTC" [resultEx]
      ≠ generate_markdown_table "2026-01-20 00:00:01 UTC" [resultEx] := by
  intro h
  have h2 := congrArg MarkdownReport.testRun h
  simp [generate_markdown_table] at h2

/-- Claim C8 (amended): the rendered report is a pure function of the
outcome list and of the clock reading taken while rendering: two
invocations with the same outcome list and the same clock reading produce
the identical report document, and rendering has no side effects beyond
producing the document. -/
theorem generate_markdown_table_pure (now₁ now₂ : String)
    (results₁ results₂ : List TestResult)
    (hnow : now₁ = now₂) (hres : results₁ = results₂) :
    generate_markdown_table now₁ results₁ = generate_markdown_table now₂ results₂ := by
  rw [hnow, hres]

/-- Claim C8 witness: the purity theorem at a concrete clock reading and
outcome list. -/
theorem generate_markdown_table_pure_witness :
    generate_markdown_table "2026-01-20 00:00:00 UTC" [resultEx]
      = generate_markdown_table "2026-01-20 00:00:00 UTC" [resultEx] :=
  generate_markdown_table_pure "2026-01-20 00:00:00 UTC" "2026-01-20 00:00:00 UTC"
    [resultEx] [resultEx] rfl rfl

/-- Check 4 records its outcome under the fixed test name on every path. -/
theorem check4_result_name (env : TestEnv) :
    (check4_result env).test_name = "Hybrid Vector + Graph Search" := by
  unfold check4_result
  rcases env.searchResult with e | l
  · rfl
  · rcases l with _ | ⟨top, rest⟩
    · rfl
    · dsimp only
      split <;> rfl

/-- Check 4's status is always the string PASS or FAIL. -/
theorem check4_result_status (env : TestEnv) :
    (check4_result env).status = "PASS" ∨ (check4_result env).status = "FAIL" := by
  unfold check4_result
  rcases env.searchResult with e | l
  · exact Or.inr rfl
  · rcases l with _ | ⟨top, rest⟩
    · exact Or.inr rfl
    · dsimp only
      split
      · exact Or.inl rfl
      · exact Or.inr rfl

/-- A transport failure of the hybrid search records a failing outcome. -/
theorem check4_result_error (env : TestEnv) (e : String)
    (h : env.searchResult = Except.error e) :
    (check4_result env).status = "FAIL" := by
  simp [check4_result, h]

/-- Check 5 records its outcome under the fixed test name on every path. -/
theorem check5_result_name (env : TestEnv) :
    (check5_result env).test_name = "Data Consistency Verification" := by
  unfold check5_result
  rcases env.countsResult with e | ⟨n, r, m⟩
  · rfl
  · dsimp only
    split <;> rfl

/-- Check 5's status is always the string PASS or FAIL. -/
theorem check5_result_status (env : TestEnv) :
    (check5_result env).status = "PASS" ∨ (check5_result env).status = "FAIL" := by
  unfold check5_result
  rcases env.countsResult with e | ⟨n, r, m⟩
  · exact Or.inr rfl
  · dsimp only
    split
    · exact Or.inl rfl
    · exact Or.inr rfl

/-- A transport failure of the consistency queries records a failing
outcome. -/
theorem check5_result_error (env : TestEnv) (e : String)
    (h : env.countsResult = Except.error e) :
    (check5_result env).status = "FAIL" := by
  simp [check5_result, h]

/-! ## Claim C1 -/

/-- Claim C1: a failure of check 1, 2 or 3 appends exactly one failing
outcome for that check and returns the partial list immediately — later
checks never execute; in particular a false connectivity answer yields
exactly the single failing connectivity outcome.  When checks 1-3 all
succeed, all five outcomes are recorded in order, and a failure of check 4
(hybrid search) or check 5 (consistency) appends a failing outcome while
the run proceeds to the remaining checks. -/
theorem run_graphrag_test_fail_fast (env : TestEnv) :
    (env.connectivity = false →
      (run_graphrag_test env).map (fun r => (r.test_name, r.status))
        = [("Connection Verification", "FAIL")])
    ∧ (∀ e, env.connectivity = true → env.initResult = Except.error e →
      (run_graphrag_test env).map (fun r => (r.test_name, r.status))
        = [("Connection Verification", "PASS"), ("Database Initialization", "FAIL")])
    ∧ (∀ e, env.connectivity = true → env.initResult = Except.ok () →
        env.ingestResult = Except.error e →
      (run_graphrag_test env).map (fun r => (r.test_name, r.status))
        = [("Connection Verification", "PASS"), ("Database Initialization", "PASS"),
           ("Data Ingestion", "FAIL")])
    ∧ (env.connectivity = true → env.initResult = Except.ok () →
        env.ingestResult = Except.ok () →
      (run_graphrag_test env).map (fun r => r.test_name) = canonicalTestNames)
    ∧ (∀ e, env.connectivity = true → env.initResult = Except.ok () →
        env.ingestResult = Except.ok () → env.searchResult = Except.error e →
      ((run_graphrag_test env).map (fun r => r.status)).get? 3 = some "FAIL"
        ∧ ((run_graphrag_test env).map (fun r => r.status)).get? 4 ≠ none)
    ∧ (∀ e, env.connectivity = true → env.initResult = Except.ok () →
        env.ingestResult = Except.ok () → env.countsResult = Except.error e →
      ((run_graphrag_test env).map (fun r => r.status)).get? 4 = some "FAIL") := by
  refine ⟨?_, ?_, ?_, ?_, ?_, ?_⟩
  · intro h
    simp [run_graphrag_test, h]
  · intro e h1 h2
    simp [run_graphrag_test, h1, h2]
  · intro e h1 h2 h3
    simp [run_graphrag_test, h1, h2, h3]
  · intro h1 h2 h3
    simp [run_graphrag_test, h1, h2, h3, canonicalTestNames,
      check4_result_name, check5_result_name]
  · intro e h1 h2 h3 h4
    constructor
    · simp [run_graphrag_test, h1, h2, h3, check4_result_error env e h4]
    · simp [run_graphrag_test, h1, h2, h3]
  · intro e h1 h2 h3 h4
    simp [run_graphrag_test, h1, h2, h3, check5_result_error env e h4]

/-! ## Claim C9 -/

/-- Claim C9: the returned outcome list always has between 1 and 5
entries, its test names are, in order, a prefix of the fixed five-name
sequence, and every outcome's status is exactly PASS or FAIL. -/
theorem run_graphrag_test_invariants (env : TestEnv) :
    (run_graphrag_test env).map (fun r => r.test_name)
      = canonicalTestNames.take (run_graphrag_test env).length
    ∧ 1 ≤ (run_graphrag_test env).length
    ∧ (run_graphrag_test env).length ≤ 5
    ∧ (run_graphrag_test env).all
        (fun r => r.status == "PASS" || r.status == "FAIL") = true := by
  obtain ⟨conn, initR, ingestR, searchR, countsR, l1, l2, l3, l4, l5,
    t1, t2, t3, t4, t5⟩ := env
  cases conn
  · simp [run_graphrag_test, canonicalTestNames]
  · cases initR with
    | error e => simp [run_graphrag_test, canonicalTestNames]
    | ok u =>
      cases u
      cases ingestR with
      | error e => simp [run_graphrag_test, canonicalTestNames]
      | ok u =>
        cases u
        refine ⟨?_, ?_, ?_, ?_⟩
        · simp [run_graphrag_test, canonicalTestNames,
            check4_result_name, check5_result_name]
        · simp [run_graphrag_test]
        · simp [run_graphrag_test]
        · rcases check4_result_status
            ⟨true, Except.ok (), Except.ok (), searchR, countsR,
             l1, l2, l3, l4, l5, t1, t2, t3, t4, t5⟩ with h4 | h4 <;>
          rcases check5_result_status
            ⟨true, Except.ok (), Except.ok (), searchR, countsR,
             l1, l2, l3, l4, l5, t1, t2, t3, t4, t5⟩ with h5 | h5 <;>
          simp [run_graphrag_test, h4, h5]

/-! ## Poll-loop lemmas for `_wait_for_index_online` -/

/-- The poll loop from elapsed time `t` succeeds exactly when some poll
instant `t + 2k` strictly below the timeout reads ONLINE. -/
theorem waitLoop_ok_iff (status : ℕ → Option String) (timeout : ℕ) :
    ∀ t, waitLoop status timeout t = Except.ok ()
      ↔ ∃ k, t + 2 * k < timeout ∧ status (t + 2 * k) = some "ONLINE" := by
  intro t
  generalize hn : timeout - t = n
  induction n using Nat.strong_induction_on generalizing t with
  | _ n ih =>
    rw [waitLoop]
    split
    · rename_i hlt
      split
      · rename_i hon
        constructor
        · intro _
          exact ⟨0, by omega, by simpa using hon⟩
        · intro _
          rfl
      · rename_i hnot
        rw [ih (timeout - (t + 2)) (by omega) (t + 2) rfl]
        constructor
        · rintro ⟨k, hk, hs⟩
          refine ⟨k + 1, by omega, ?_⟩
          have harg : t + 2 * (k + 1) = t + 2 + 2 * k := by omega
          rw [harg]
          exact hs
        · rintro ⟨k, hk, hs⟩
          cases k with
          | zero => exact absurd (by simpa using hs) hnot
          | succ k =>
            refine ⟨k, by omega, ?_⟩
            have harg : t + 2 + 2 * k = t + 2 * (k + 1) := by omega
            rw [harg]
            exact hs
    · rename_i hge
      constructor
      · intro h
        exact absurd h (by simp)
      · rintro ⟨k, hk, _⟩
        omega

/-- The poll loop either succeeds or raises exactly the TimeoutError. -/
theorem waitLoop_ok_or_error (status : ℕ → Option String) (timeout : ℕ) :
    ∀ t, waitLoop status timeout t = Except.ok ()
      ∨ waitLoop status timeout t = Except.error (waitTimeoutMsg timeout) := by
  intro t
  generalize hn : timeout - t = n
  induction n using Nat.strong_induction_on generalizing t with
  | _ n ih =>
    rw [waitLoop]
    split
    · split
      · exact Or.inl rfl
      · rename_i hlt _
        exact ih (timeout - (t + 2)) (by omega) (t + 2) rfl
    · exact Or.inr rfl

/-! ## Claim C2 -/

/-- Claim C2 counterexample: with a status source that reads ONLINE from
elapsed time 1 on, the index becomes online at time 1, strictly before
the timeout of 2 — yet `_wait_for_index_online` fails with the
TimeoutError, because the only poll instant strictly below the timeout is
0 (the next poll would occur at time 2, when the while condition has
already elapsed).  The claim as stated — returns normally *whenever* the
status becomes online strictly before the timeout — is therefore false of
the code. -/
theorem wait_for_index_online_misses_late_online :
    statusOnlineAt1 1 = some "ONLINE"
    ∧ (1 : ℕ) < 2
    ∧ _wait_for_index_online statusOnlineAt1 2 = Except.error (waitTimeoutMsg 2) := by
  refine ⟨rfl, by omega, ?_⟩
  show waitLoop statusOnlineAt1 2 0 = Except.error (waitTimeoutMsg 2)
  rcases waitLoop_ok_or_error statusOnlineAt1 2 0 with h | h
  · exfalso
    rw [waitLoop_ok_iff] at h
    obtain ⟨k, hk, hs⟩ := h
    have hk0 : k = 0 := by omega
    subst hk0
    simp [statusOnlineAt1] at hs
  · exact h

/-- Claim C2 (amended): `_wait_for_index_online(timeout)` polls the index
status at the fixed interval of 2 time-units (at elapsed times 0, 2, 4,
…) and returns normally exactly when the status reads "ONLINE" at one of
the poll instants strictly below the timeout — in particular whenever the
index is online by the last such instant; otherwise it fails with the
distinct TimeoutError naming the index and the timeout.  (An index that
becomes online strictly before the timeout but only after the last poll
instant is missed: see the counterexample.) -/
theorem wait_for_index_online_spec (status : ℕ → Option String) (timeout : ℕ) :
    (_wait_for_index_online status timeout = Except.ok ()
      ↔ ∃ k, 2 * k < timeout ∧ status (2 * k) = some "ONLINE")
    ∧ ((∀ k, 2 * k < timeout → status (2 * k) ≠ some "ONLINE") →
      _wait_for_index_online status timeout = Except.error (waitTimeoutMsg timeout)) := by
  constructor
  · have h := waitLoop_ok_iff status timeout 0
    simpa [_wait_for_index_online] using h
  · intro hnone
    rcases waitLoop_ok_or_error status timeout 0 with h | h
    · exfalso
      rw [waitLoop_ok_iff] at h
      obtain ⟨k, hk, hs⟩ := h
      exact hnone k (by omega) (by simpa using hs)
    · exact h

/-- Claim C2 witness: a status source that is online at the very first
poll makes the call return normally. -/
theorem wait_for_index_online_spec_witness :
    _wait_for_index_online statusAlwaysOnline 1 = Except.ok () :=
  (wait_for_index_online_spec statusAlwaysOnline 1).1.mpr ⟨0, by omega, rfl⟩

/-! ## Claim C5 -/

/-- Claim C5: every relationship entry of every hit returned by
`vector_search_with_graph` has a non-null target name, and a matched
entity with no outgoing relationships is still returned as a hit — with
an empty relationships list — rather than being eliminated from the
results. -/
theorem vector_search_with_graph_spec (hits : List IndexHit)
    (ents : List StoredEntity) (edges : List GraphEdge) :
    ((vector_search_with_graph hits ents edges).all
      (fun res => res.relationships.all (fun rel => rel.target_name.isSome)) = true)
    ∧ (∀ h ∈ hits, edges.filter (fun e => e.src = h.name) = [] →
        (vector_search_with_graph hits ents edges).any
          (fun res => res.name == h.name && res.relationships.isEmpty) = true) := by
  constructor
  · rw [List.all_eq_true]
    intro res hres
    rw [List.all_eq_true]
    intro rel hrel
    simp only [vector_search_with_graph, List.mem_map] at hres
    obtain ⟨h, _, rfl⟩ := hres
    simp only at hrel
    exact (List.mem_filter.mp hrel).2
  · intro h hmem hnoedges
    rw [List.any_eq_true]
    have hrows : relRows ents edges h.name = [] := by
      simp [relRows, hnoedges]
    refine ⟨{ name := h.name, node_type := h.node_type, description := h.description
              similarity_score := h.score, relationships := [] }, ?_, ?_⟩
    · simp only [vector_search_with_graph, List.mem_map]
      refine ⟨h, List.mem_mergeSort.mpr hmem, ?_⟩
      simp [optionalMatchRows, hrows]
    · simp

/-! ## Norm lemmas for the embedding generator -/

/-- A vector with a nonzero component has positive sum of squares. -/
theorem sum_sq_pos_of_ne_zero (v : List ℝ) (hx : ∃ x ∈ v, x ≠ 0) :
    0 < (v.map (fun x => x ^ 2)).sum := by
  induction v with
  | nil => simp at hx
  | cons a l ih =>
    simp only [List.map_cons, List.sum_cons]
    rcases hx with ⟨x, hxmem, hxne⟩
    have hl : 0 ≤ (l.map (fun x => x ^ 2)).sum := by
      refine List.sum_nonneg ?_
      intro y hy
      obtain ⟨z, _, rfl⟩ := List.mem_map.mp hy
      positivity
    rcases List.mem_cons.mp hxmem with rfl | hmem
    · have h1 : 0 < x ^ 2 := by positivity
      linarith
    · have h1 := ih ⟨x, hmem, hxne⟩
      have h2 : 0 ≤ a ^ 2 := sq_nonneg a
      linarith

/-! ## Claim C4 -/

/-- Claim C4: `generate_mock_embedding(s, d)` is deterministic — equal
seed and dimension give the identical vector — and returns a vector of
length `d` whose Euclidean norm is exactly 1 (hence within the 1e-6
tolerance), provided the underlying draw has the requested length and is
not the all-zero vector (a standard-normal draw never is). -/
theorem generate_mock_embedding_unit_norm (randn : ℕ → ℕ → List ℝ)
    (s d : ℕ) (hlen : (randn s d).length = d)
    (hnz : ∃ x ∈ randn s d, x ≠ 0) :
    (∀ s₂ d₂, s₂ = s → d₂ = d →
      generate_mock_embedding randn s₂ d₂ = generate_mock_embedding randn s d)
    ∧ (generate_mock_embedding randn s d).length = d
    ∧ l2norm (generate_mock_embedding randn s d) = 1
    ∧ |l2norm (generate_mock_embedding randn s d) - 1| ≤ 1 / 1000000 := by
  have hS : 0 < ((randn s d).map (fun x => x ^ 2)).sum := sum_sq_pos_of_ne_zero _ hnz
  have hsum : ((generate_mock_embedding randn s d).map (fun x => x ^ 2)).sum = 1 := by
    simp only [generate_mock_embedding]
    rw [List.map_map]
    have hcomp : ((fun x => x ^ 2) ∘ fun x => x / l2norm (randn s d))
        = fun x => x ^ 2 * (l2norm (randn s d) ^ 2)⁻¹ := by
      funext x
      rw [Function.comp_apply, div_pow, div_eq_mul_inv]
    rw [hcomp, List.sum_map_mul_right]
    have hsq : l2norm (randn s d) ^ 2 = ((randn s d).map (fun x => x ^ 2)).sum := by
      rw [l2norm]
      exact Real.sq_sqrt hS.le
    rw [hsq]
    exact mul_inv_cancel₀ (ne_of_gt hS)
  have hnorm : l2norm (generate_mock_embedding randn s d) = 1 := by
    rw [l2norm, hsum, Real.sqrt_one]
  refine ⟨fun s₂ d₂ hs hd => by rw [hs, hd], ?_, hnorm, ?_⟩
  · simp [generate_mock_embedding, hlen]
  · rw [hnorm]
    norm_num

/-- Claim C4 witness: at the concrete all-ones sampler, seed 5, dimension
3, the generated embedding has length 3 and Euclidean norm 1. -/
theorem generate_mock_embedding_unit_norm_witness :
    (generate_mock_embedding onesSampler 5 3).length = 3
    ∧ l2norm (generate_mock_embedding onesSampler 5 3) = 1 :=
  ⟨(generate_mock_embedding_unit_norm onesSampler 5 3 (by simp [onesSampler])
      ⟨1, by simp [onesSampler], one_ne_zero⟩).2.1,
   (generate_mock_embedding_unit_norm onesSampler 5 3 (by simp [onesSampler])
      ⟨1, by simp [onesSampler], one_ne_zero⟩).2.2.1⟩

/-! ## Claim C10 -/

/-- Claim C10: every embedding written during ingestion (the three sample
documents, seeds 42/43/44) and the check-4 query vector (seed 42) are
generated with dimension 1536, which is exactly the fixed dimension the
vector index is created with, so stored embeddings and query vectors
always match the index configuration. -/
theorem embedding_dimensions_match_index (randn : ℕ → ℕ → List ℝ)
    (hlen : ∀ s d, (randn s d).length = d) :
    (∀ doc ∈ (create_sample_health_data randn).1,
      doc.embedding.length = create_vector_index_config.dimensions)
    ∧ (test4_query_embedding randn).length = create_vector_index_config.dimensions
    ∧ create_vector_index_config.dimensions = VECTOR_DIMENSION
    ∧ VECTOR_DIMENSION = 1536 := by
  have hglen : ∀ s d, (generate_mock_embedding randn s d).length = d := by
    intro s d
    simp [generate_mock_embedding, hlen]
  refine ⟨?_, ?_, rfl, rfl⟩
  · intro doc hdoc
    simp only [create_sample_health_data, List.mem_cons,
      List.not_mem_nil, or_false] at hdoc
    rcases hdoc with rfl | rfl | rfl <;>
      simp [hglen, create_vector_index_config, VECTOR_DIMENSION]
  · simp [test4_query_embedding, hglen, create_vector_index_config, VECTOR_DIMENSION]

/-- Claim C10 witness: at the concrete all-ones sampler the check-4 query
vector's length equals the index's configured dimension. -/
theorem embedding_dimensions_match_index_witness :
    (test4_query_embedding onesSampler).length = create_vector_index_config.dimensions :=
  (embedding_dimensions_match_index onesSampler (fun s d => by simp [onesSampler])).2.1
